import Mathlib

/-!
Verification development for the Automated-Data-System repository.

Shallow embedding of the document-generation pipeline:
  - the Job / JobItem state machine driven by the render tasks
    (src/server/workers/tasks.py, render_document / create_bundle /
    parse_datasource / render_combined_document) and the cancel endpoint
    (src/app/api/jobs.py, cancel_job);
  - the file parser and column type inference
    (src/server/services/file_parser.py);
  - the mapping engine and template renderer
    (src/app/services/template_engine.py).

Conventions: machine integers are Nat (the counters only grow and start
at 0); database sessions are modelled by explicit state records; one
Celery task execution (an "attempt") is one step of the state machine;
external collaborators (the Jinja2 engine, S3, pandas dtype checks) are
parameters of the definitions.
-/

namespace AutoDocs

/-! ## Data model: statuses (src/app/models/job.py, src/server/models/output.py) -/

inductive JobStatus
  | PENDING | PROCESSING | COMPLETED | FAILED | CANCELLED
  deriving DecidableEq, Repr

inductive JobItemStatus
  | PENDING | PROCESSING | COMPLETED | FAILED | SKIPPED
  deriving DecidableEq, Repr

inductive OutputType
  | document | bundle | single | error_report
  deriving DecidableEq, Repr

/-! ## Job orchestration state

One Job together with its JobItems, as touched by the worker tasks.
`bundleCalls` counts invocations of `create_bundle.delay` (tasks.py line 300),
so that "the Bundler is triggered exactly once" is statable. -/

structure ItemState where
  status : JobItemStatus
  retry_count : Nat
  error_message : Option String
  deriving DecidableEq, Repr

structure JobState where
  status : JobStatus
  total_items : Nat
  completed_items : Nat
  failed_items : Nat
  items : List ItemState
  bundleCalls : Nat
  deriving DecidableEq, Repr

/-- Initial state produced by `process_job` in per_row mode
(tasks.py lines 119-188): job set to PROCESSING, one PENDING JobItem per
datasource row, `total_items` set to the row count, counters at zero. -/
def initItem : ItemState :=
  { status := JobItemStatus.PENDING, retry_count := 0, error_message := none }

def initJob (n : Nat) : JobState :=
  { status := JobStatus.PROCESSING
    total_items := n
    completed_items := 0
    failed_items := 0
    items := List.replicate n initItem
    bundleCalls := 0 }

/-- Completion check run on the success path of `render_document`
(tasks.py lines 289-300): re-fetch the job, and if
`completed_items + failed_items >= total_items` set the status to COMPLETED
and trigger `create_bundle.delay`. -/
def checkCompletion (s : JobState) : JobState :=
  if s.total_items ≤ s.completed_items + s.failed_items then
    { s with status := JobStatus.COMPLETED, bundleCalls := s.bundleCalls + 1 }
  else s

/-- Effect of one successful execution of `render_document` for item `i`
(tasks.py lines 236-300): the item is marked COMPLETED, `completed_items`
is incremented by the atomic counter update, then the completion check runs.
If the item does not exist the task returns early with no state change. -/
def render_document_success (s : JobState) (i : Nat) : JobState :=
  match s.items.get? i with
  | none => s
  | some it =>
      checkCompletion
        { s with
            items := s.items.set i { it with status := JobItemStatus.COMPLETED }
            completed_items := s.completed_items + 1 }

/-- Effect of one failing execution (raised exception) of `render_document`
for item `i` (tasks.py lines 308-319, the `except` block): the item is marked
FAILED with the error recorded, its `retry_count` is incremented, and the
Job's `failed_items` is incremented.  This block runs on EVERY failing
attempt, retried attempts included; it performs no completion check and
never touches the Job status. -/
def render_document_failure (s : JobState) (i : Nat) (err : String) : JobState :=
  match s.items.get? i with
  | none => s
  | some it =>
      { s with
          items := s.items.set i
            { it with
                status := JobItemStatus.FAILED
                error_message := some err
                retry_count := it.retry_count + 1 }
          failed_items := s.failed_items + 1 }

/-- Retry scheduling of `render_document` (`raise self.retry(exc=e,
countdown=60 * (self.request.retries + 1))` with `max_retries=3`):
a failing attempt with `retries` previous retries schedules another run
after `60 * (retries + 1)` seconds while `retries < 3`, and re-raises the
final error once retries are exhausted. -/
inductive RetryOutcome
  | retryScheduled (countdown : Nat)
  | exhausted
  deriving DecidableEq, Repr

def render_document_retry (retries : Nat) : RetryOutcome :=
  if retries < 3 then RetryOutcome.retryScheduled (60 * (retries + 1))
  else RetryOutcome.exhausted

/-- A normalized scalar value of a DataSourceRow / row_data dict: after
`clean_row` (file_parser.py lines 166-183) every value is a string, a
number, a boolean or null. -/
inductive JValue
  | null
  | str (s : String)
  | num (n : Int)
  | boolean (b : Bool)
  deriving DecidableEq, Repr

/-- A row_data dict: Python dicts preserve insertion order and have unique
keys, modelled as an association list. -/
abbrev RowData := List (String × JValue)

/-- The `cancel_job` endpoint (src/app/api/jobs.py lines 229-265): accepted
only while the job is PENDING or PROCESSING, in which case the status is set
to CANCELLED; otherwise the request is rejected with HTTP 400 and the state
is unchanged. -/
def cancel_job (s : JobState) : JobState :=
  if s.status = JobStatus.PENDING ∨ s.status = JobStatus.PROCESSING then
    { s with status := JobStatus.CANCELLED }
  else s

/-- One observable event during job processing: a render-task attempt for an
item finishing successfully, a render-task attempt raising, or a cancel
request. -/
inductive RenderEvent
  | success (i : Nat)
  | failure (i : Nat) (err : String)
  | cancel
  deriving DecidableEq, Repr

def stepEvent (s : JobState) : RenderEvent → JobState
  | RenderEvent.success i => render_document_success s i
  | RenderEvent.failure i err => render_document_failure s i err
  | RenderEvent.cancel => cancel_job s

def runEvents (s : JobState) (es : List RenderEvent) : JobState :=
  es.foldl stepEvent s

/-! ## Schema inference (src/server/services/file_parser.py) -/

inductive ColType
  | string | integer | number | date | boolean
  deriving DecidableEq, Repr

/-- `infer_column_type` (file_parser.py lines 123-152).  The pandas dtype
predicates on the series are parameters (they depend on the pandas parse,
external to this development); `nonNull` is the list of the column's
non-null values rendered as strings, in order, and `isDateStr` is the
`is_date_string` predicate (dateutil, external).

The source compares with floats: `date_count > len(sample) * 0.8`.  Here
`sample` has at most 10 elements and for every `n ≤ 10` the double nearest
to `n * 0.8` rounds to exactly `4n/5` when that is an integer (n = 5, 10)
and otherwise lies within 1e-15 of the non-integral value `4n/5`, so for
integer `date_count` the float comparison coincides with the exact rational
comparison `5 * date_count > 4 * n`, which is used below. -/
def infer_column_type (is_numeric is_integer is_datetime is_bool : Bool)
    (nonNull : List String) (isDateStr : String → Bool) : ColType :=
  if nonNull.length = 0 then ColType.string
  else if is_numeric then (if is_integer then ColType.integer else ColType.number)
  else if is_datetime then ColType.date
  else if is_bool then ColType.boolean
  else
    if 4 * (nonNull.take 10).length < 5 * ((nonNull.take 10).filter isDateStr).length then
      ColType.date
    else ColType.string

/-- Shape of a decoded JSON document, as discriminated by `parse_json`
(file_parser.py lines 70-78): a JSON array of records, a JSON object whose
keys include "data" (whose records are taken), a JSON object without a
"data" key, or any other JSON value (string, number, boolean, null). -/
inductive JsonShape
  | arr (rows : List RowData)
  | objWithData (rows : List RowData)
  | objNoData (keys : List String)
  | scalar
  deriving DecidableEq, Repr

def jsonErrMsg : String := "JSON must be array or object with 'data' array"

/-- `parse_json` (file_parser.py lines 70-78): a list becomes a DataFrame of
its records, a dict with a "data" key becomes a DataFrame of that entry, and
everything else raises `ValueError(jsonErrMsg)`. -/
def parse_json : JsonShape → Except String (List RowData)
  | JsonShape.arr rows => Except.ok rows
  | JsonShape.objWithData rows => Except.ok rows
  | JsonShape.objNoData _ => Except.error jsonErrMsg
  | JsonShape.scalar => Except.error jsonErrMsg

/-! ## The parse task (src/server/workers/tasks.py, parse_datasource) -/

inductive DataSourceStatus
  | PENDING | PROCESSING | READY | FAILED
  deriving DecidableEq, Repr

/-- The DataSource record as touched by `parse_datasource`: its lifecycle
status, captured error text, and the persisted DataSourceRow payloads. -/
structure DataSourceState where
  status : DataSourceStatus
  error_message : Option String
  rows : List RowData
  deriving DecidableEq, Repr

/-- Outcome of one `parse_datasource` task execution: normal return, or the
`raise self.retry(...)` path (another run scheduled after the countdown
while `retries < max_retries = 3`, final failure once exhausted). -/
inductive TaskOutcome
  | done
  | retryScheduled (countdown : Nat)
  | exhausted
  deriving DecidableEq, Repr

/-- Effect of one `parse_datasource` execution (tasks.py lines 40-104) given
the result of `parse_file` on the downloaded bytes.  On success the prior
rows are deleted and the parsed rows stored, then the status is set READY.
On any exception the status is set FAILED with the error text captured and
the rows are untouched (`parse_file` raises before any row is stored); the
task then re-raises through `self.retry(exc=e, countdown=60 * (retries+1))`
with `max_retries = 3`, so every failure — parse errors included — schedules
a retry while retries remain. -/
def parse_datasource (ds : DataSourceState)
    (parseResult : Except String (List RowData)) (retries : Nat) :
    DataSourceState × TaskOutcome :=
  match parseResult with
  | Except.ok rows =>
      ({ ds with status := DataSourceStatus.READY, rows := rows }, TaskOutcome.done)
  | Except.error msg =>
      ({ ds with status := DataSourceStatus.FAILED, error_message := some msg },
        if retries < 3 then TaskOutcome.retryScheduled (60 * (retries + 1))
        else TaskOutcome.exhausted)

/-! ## Mapping engine (src/app/services/template_engine.py, apply_mapping) -/

/-- Dict lookup: first binding of the key, if any. -/
def lookupCol (row : RowData) (k : String) : Option JValue :=
  match row with
  | [] => none
  | (k2, v) :: rest => if k2 = k then some v else lookupCol rest k

/-- `apply_mapping` (template_engine.py lines 171-193): for each mapping
entry `template_var -> datasource_col`, take the row's value when the column
is present, else `None`; the result is keyed by the template variable
names. -/
def apply_mapping (row_data : RowData) (mapping : List (String × String)) : RowData :=
  mapping.map (fun p =>
    (p.1, match lookupCol row_data p.2 with
          | some v => v
          | none => JValue.null))

/-! ## Template renderer (src/app/services/template_engine.py, render_template)
and the combined document (src/server/workers/tasks.py,
render_combined_document)

Text is List Char.  The Jinja2 engine itself is external: it appears as a
parameter `jinja : List Char → RowData → List Char` taking the template text
and the mapped data to the rendered body. -/

def chars (s : String) : List Char := s.toList

/-- Case-insensitive match of the (already lowercase) pattern at the head of
the text, reading only pattern-length characters — one anchored attempt of
the regex engine under re.IGNORECASE. -/
def lowerStartsWith : List Char → List Char → Bool
  | [], _ => true
  | _ :: _, [] => false
  | p :: ps, c :: cs => (Char.toLower c == p) && lowerStartsWith ps cs

/-- Leftmost case-insensitive occurrence of the pattern: the text before the
match and the text from the match on (re.search semantics for a literal
pattern). -/
def splitAtFirstLower (pat : List Char) : List Char → Option (List Char × List Char)
  | [] => if lowerStartsWith pat [] then some ([], []) else none
  | c :: cs =>
      if lowerStartsWith pat (c :: cs) then some ([], c :: cs)
      else (splitAtFirstLower pat cs).map (fun p => (c :: p.1, p.2))

def containsLower (pat l : List Char) : Bool :=
  (splitAtFirstLower pat l).isSome

/-- Split at the first occurrence of a character: the run before it (which
therefore avoids the character, as `[^>]*` does) and the text strictly after
it. -/
def splitAtChar (ch : Char) : List Char → Option (List Char × List Char)
  | [] => none
  | c :: cs =>
      if c = ch then some ([], cs)
      else (splitAtChar ch cs).map (fun p => (c :: p.1, p.2))

/-- Head of the document produced by `render_template`
(template_engine.py lines 90-121), up to the interpolated css. -/
def htmlHeadPre : String :=
  "<!DOCTYPE html>\n<html>\n<head>\n    <meta charset=\"UTF-8\">\n    <style>\n        "

/-- Rest of the head after the css: the default styles block through
`</head>`, ending just before the body open tag. -/
def htmlHeadPost : String :=
  "\n        \n        /* Default styles */\n        body \x7b\n            font-family: Arial, sans-serif;\n            margin: 0;\n            padding: 20px;\n            line-height: 1.6;\n        \x7d\n        table \x7b\n            border-collapse: collapse;\n            width: 100%;\n        \x7d\n        th, td \x7b\n            border: 1px solid #ddd;\n            padding: 8px;\n            text-align: left;\n        \x7d\n        th \x7b\n            background-color: #f4f4f4;\n        \x7d\n    </style>\n</head>\n"

def bodyOpenTag : List Char := ['<', 'b', 'o', 'd', 'y', '>']

/-- The whitespace between `<body>` and the interpolated body in the
f-string: a newline and the 4-space indent. -/
def bodyPad : List Char := ['\n', ' ', ' ', ' ', ' ']

def bodyTail : List Char := chars "\n</body>\n</html>"

/-- `render_template` (template_engine.py lines 69-129): the Jinja2 render
of the template against the data, wrapped in the fixed full HTML document
with the stylesheet interpolated into the head. -/
def render_template (jinja : List Char → RowData → List Char)
    (template_content : List Char) (css_content : List Char) (data : RowData) : List Char :=
  chars htmlHeadPre ++ css_content ++ chars htmlHeadPost
    ++ bodyOpenTag ++ bodyPad ++ jinja template_content data ++ bodyTail

def bodyOpenPat : List Char := ['<', 'b', 'o', 'd', 'y']

def bodyClosePat : List Char := ['<', '/', 'b', 'o', 'd', 'y', '>']

/-- The body extraction of `render_combined_document` (tasks.py lines
365-371): when the per-row render contains "<body" the inner content of
`re.search(r'<body[^>]*>(.*?)</body>', html, DOTALL | IGNORECASE)` replaces
it, otherwise it is kept as is.  Modelled for a leftmost candidate that
completes: the leftmost "<body" occurrence, the attribute run up to the
first '>', then the non-greedy capture up to the first "</body>"; when any
stage is missing no substitution happens (on documents whose leftmost
candidate completes — every `render_template` output — this is exactly the
regex result). -/
def extractBodyContent (html : List Char) : List Char :=
  (((splitAtFirstLower bodyOpenPat html).bind (fun m =>
      (splitAtChar '>' (m.2.drop bodyOpenPat.length)).bind (fun m2 =>
        (splitAtFirstLower bodyClosePat m2.2).map (fun m3 => m3.1)))).getD html)

/-- The `page_break_css` literal of `render_combined_document`
(tasks.py lines 375-384). -/
def pageBreakCss : String :=
  "\n        <style>\n            .page-container \x7b\n                page-break-after: always;\n            \x7d\n            .page-container:last-child \x7b\n                page-break-after: avoid;\n            \x7d\n        </style>\n        "

def containerOpen : List Char := chars "<div class=\"page-container\">"

def containerClose : List Char := chars "</div>"

/-- Pieces of the final `combined_html` f-string (tasks.py lines 392-402). -/
def combinedHeadPre : String :=
  "<!DOCTYPE html>\n<html>\n<head>\n    <meta charset=\"UTF-8\">\n    "

def combinedStyleOpen : String := "\n    <style>"

def combinedStyleClose : String := "</style>\n</head>\n<body>\n    "

def combinedTail : String := "\n</body>\n</html>"

/-- `render_combined_document` (tasks.py lines 326-473), the document
construction of lines 355-402: each row is mapped and rendered
independently with an EMPTY stylesheet, its body content extracted, wrapped
in a page-container div; the containers are joined with newlines into one
body, and the final document carries the page-break css and the full
stylesheet once in its head. -/
def render_combined_document (jinja : List Char → RowData → List Char)
    (template_content css_content : List Char) (mapping : List (String × String))
    (all_rows_data : List RowData) : List Char :=
  chars combinedHeadPre ++ chars pageBreakCss ++ chars combinedStyleOpen
    ++ css_content ++ chars combinedStyleClose
    ++ List.intercalate (chars "\n")
        ((all_rows_data.map (fun row =>
            extractBodyContent
              (render_template jinja template_content [] (apply_mapping row mapping)))).map
          (fun page => containerOpen ++ page ++ containerClose))
    ++ chars combinedTail

/-- Modelled from the spec: the combined-document algorithm of spec §4.4 —
render each row independently with an empty stylesheet and take only the
body inner content (for a `render_template` document this inner content is
the Jinja2 render surrounded by the wrapper's own whitespace), wrap each
fragment in a page container, join the containers (one per row) into one
body, and wrap once with the page-break css and the full stylesheet. -/
def specPageFragment (jinja : List Char → RowData → List Char)
    (template_content : List Char) (mapping : List (String × String))
    (row : RowData) : List Char :=
  bodyPad ++ jinja template_content (apply_mapping row mapping) ++ chars "\n"

def combinedDocumentSpec (jinja : List Char → RowData → List Char)
    (template_content css_content : List Char) (mapping : List (String × String))
    (all_rows_data : List RowData) : List Char :=
  chars combinedHeadPre ++ chars pageBreakCss ++ chars combinedStyleOpen
    ++ css_content ++ chars combinedStyleClose
    ++ List.intercalate (chars "\n")
        (all_rows_data.map (fun row =>
          containerOpen ++ specPageFragment jinja template_content mapping row
            ++ containerClose))
    ++ chars combinedTail

/-! ## Bundler (src/server/workers/tasks.py, create_bundle) -/

/-- A JobItem as consumed by `create_bundle`: its row index, status, and the
bytes of its stored artifact (the `download_from_s3` result). -/
structure BundleItem where
  row_index : Nat
  status : JobItemStatus
  content : List Nat
  deriving DecidableEq, Repr

/-- Zero-padding of `f"{n:04d}"`. -/
def pad4 (n : Nat) : List Char :=
  let ds := Nat.toDigits 10 n
  List.replicate (4 - ds.length) '0' ++ ds

/-- Archive entry name `f"document_{item.row_index + 1:04d}.pdf"`
(tasks.py line 519) — the extension is `.pdf` unconditionally. -/
def bundleFilename (row_index : Nat) : List Char :=
  "document_".toList ++ pad4 (row_index + 1) ++ ".pdf".toList

/-- The Output row recorded by `create_bundle` (tasks.py lines 535-543),
restricted to the claimed fields. -/
structure OutputRec where
  type : OutputType
  mime_type : String
  deriving DecidableEq, Repr

inductive BundleResult
  | noItems
  | bundle (entries : List (List Char × List Nat)) (output : OutputRec)
  deriving DecidableEq, Repr

/-- `create_bundle` (tasks.py lines 476-556).  `allItems` is the job's
JobItem list in the order the database returns it — the query filters on
`status == COMPLETED` but has no ORDER BY, so the order is whatever the
store yields.  With zero completed items the task returns
`{"status": "no_items"}`; otherwise one deflate archive entry is written per
completed item, in that order, named by `bundleFilename`, with the item's
artifact bytes unchanged, and an Output of type `bundle` is recorded. -/
def create_bundle (allItems : List BundleItem) : BundleResult :=
  match allItems.filter (fun it => it.status == JobItemStatus.COMPLETED) with
  | [] => BundleResult.noItems
  | items =>
      BundleResult.bundle
        (items.map (fun it => (bundleFilename it.row_index, it.content)))
        { type := OutputType.bundle, mime_type := "application/zip" }

/-! ## Concrete scratch inputs used by the claim theorems below -/

/-- The three failing attempts of claim C2, with their distinct errors. -/
def threeFailures : List RenderEvent :=
  [RenderEvent.failure 0 "e1", RenderEvent.failure 0 "e2", RenderEvent.failure 0 "e3"]

/-- The exhausted retry sequence used against claim C3: the initial attempt
and all 3 retries of the single item raise, after which no further attempt
exists. -/
def fourFailures : List RenderEvent :=
  [RenderEvent.failure 0 "e1", RenderEvent.failure 0 "e2",
   RenderEvent.failure 0 "e3", RenderEvent.failure 0 "e4"]

/-- A date-likeness predicate for concrete tests: exactly the string "d"
counts as parsing. -/
def predD : String → Bool := fun s => s == "d"

/-- Ten non-null values of which exactly 8 (80%) parse as dates. -/
def vals8 : List String := ["d", "d", "d", "d", "d", "d", "d", "d", "x", "y"]

/-- Ten non-null values of which 9 parse as dates. -/
def vals9 : List String := ["d", "d", "d", "d", "d", "d", "d", "d", "d", "x"]

/-- Ten non-null values of which 7 parse as dates. -/
def vals7 : List String := ["d", "d", "d", "d", "d", "d", "d", "x", "y", "z"]

/-- A DataSource mid-parse (the task sets PROCESSING before parsing), with
one previously persisted row. -/
def ds0 : DataSourceState :=
  { status := DataSourceStatus.PROCESSING
    error_message := none
    rows := [[("a", JValue.num 1)]] }

/-- Two completed bundle items with row indices 0 and 1. -/
def itemA : BundleItem :=
  { row_index := 0, status := JobItemStatus.COMPLETED, content := [10] }

def itemB : BundleItem :=
  { row_index := 1, status := JobItemStatus.COMPLETED, content := [11] }

/-- A completed item whose artifact bytes are the ASCII of "<html>" — an
html-format output. -/
def itemH : BundleItem :=
  { row_index := 0, status := JobItemStatus.COMPLETED
    content := [60, 104, 116, 109, 108, 62] }

end AutoDocs

namespace AutoDocs

/-! ## Theorems for claims C1-C4 -/

/-- Claim C1: the spec states the invariant
`completed_items + failed_items ≤ total_items` at every point of job
processing, including retried failures.  The code violates it: a job with a
single item whose first render attempt raises and whose retry then succeeds
ends with `completed_items = 1` and `failed_items = 1` against
`total_items = 1`, because the `except` block of `render_document`
increments `failed_items` on every failing attempt. -/
theorem c1_invariant_violation :
    (runEvents (initJob 1) [RenderEvent.failure 0 "boom", RenderEvent.success 0]).total_items = 1
    ∧ (runEvents (initJob 1) [RenderEvent.failure 0 "boom", RenderEvent.success 0]).completed_items = 1
    ∧ (runEvents (initJob 1) [RenderEvent.failure 0 "boom", RenderEvent.success 0]).failed_items = 1
    ∧ (runEvents (initJob 1) [RenderEvent.failure 0 "boom", RenderEvent.success 0]).total_items
        < (runEvents (initJob 1) [RenderEvent.failure 0 "boom", RenderEvent.success 0]).completed_items
          + (runEvents (initJob 1) [RenderEvent.failure 0 "boom", RenderEvent.success 0]).failed_items := by
  decide

/-- Claim C2: after a render task raises on 3 attempts in a row, the JobItem
is indeed FAILED with `retry_count = 3` and the last error recorded, but the
Job's `failed_items` counter has been incremented on every attempt and holds
3, not 1: the `except` block of `render_document` runs anew on each retried
execution.  (A further retry is still scheduled at that point, since
`self.request.retries` reaches `max_retries = 3` only on the next run.) -/
theorem c2_failed_items_per_attempt :
    (runEvents (initJob 1) threeFailures).items
      = [{ status := JobItemStatus.FAILED, retry_count := 3, error_message := some "e3" }]
    ∧ (runEvents (initJob 1) threeFailures).failed_items = 3
    ∧ (runEvents (initJob 1) threeFailures).failed_items ≠ 1
    ∧ render_document_retry 2 = RetryOutcome.retryScheduled 180 := by
  decide

/-- Claim C3 counterexample: after the only item of a job exhausts its
retries (every attempt raises), every JobItem is in a terminal state and
`completed_items + failed_items ≥ total_items` holds, yet the job is still
PROCESSING and the Bundler was never triggered: the completion re-check of
`render_document` runs only on the success path, never in the `except`
block, so no re-check happens after an item finishes by failure. -/
theorem c3_counterexample :
    (runEvents (initJob 1) fourFailures).items
      = [{ status := JobItemStatus.FAILED, retry_count := 4, error_message := some "e4" }]
    ∧ (runEvents (initJob 1) fourFailures).total_items
        ≤ (runEvents (initJob 1) fourFailures).completed_items
          + (runEvents (initJob 1) fourFailures).failed_items
    ∧ (runEvents (initJob 1) fourFailures).status = JobStatus.PROCESSING
    ∧ (runEvents (initJob 1) fourFailures).bundleCalls = 0
    ∧ render_document_retry 3 = RetryOutcome.exhausted := by
  decide

/-- Claim C3 amended: the completion re-check runs only after a successful
item render.  A success that brings `completed_items + failed_items` up to
`total_items` sets the Job to COMPLETED and triggers the Bundler (once per
such success, hence possibly more than once per job); a success below the
threshold changes neither; a failing attempt never changes the Job status
and never triggers the Bundler, so a job need not reach a terminal state
even when all of its items have. -/
theorem c3_amended (s : JobState) (i : Nat) (it : ItemState) (err : String)
    (h : s.items.get? i = some it) :
    ((render_document_success s i).status =
        (if s.total_items ≤ s.completed_items + 1 + s.failed_items then
          JobStatus.COMPLETED else s.status))
    ∧ ((render_document_success s i).bundleCalls =
        (if s.total_items ≤ s.completed_items + 1 + s.failed_items then
          s.bundleCalls + 1 else s.bundleCalls))
    ∧ (render_document_failure s i err).status = s.status
    ∧ (render_document_failure s i err).bundleCalls = s.bundleCalls := by
  refine ⟨?_, ?_, ?_, ?_⟩ <;>
    simp only [render_document_success, render_document_failure, checkCompletion, h] <;>
    split <;>
    simp_all

/-- Witness for c3_amended at a concrete state: the lone success of a
one-item job completes the job and triggers the Bundler once. -/
theorem c3_amended_witness :
    (render_document_success (initJob 1) 0).status = JobStatus.COMPLETED
    ∧ (render_document_success (initJob 1) 0).bundleCalls = 1 := by
  have h := c3_amended (initJob 1) 0 initItem "e" (by decide)
  exact ⟨h.1.trans (by decide), h.2.1.trans (by decide)⟩

/-- Claim C4 counterexample: cancelling the one-item job succeeds (it is
PROCESSING), but the already-dispatched render task then completes and the
success path of `render_document` overwrites the status with COMPLETED —
CANCELLED is not terminal. -/
theorem c4_counterexample :
    (runEvents (initJob 1) [RenderEvent.cancel]).status = JobStatus.CANCELLED
    ∧ (runEvents (initJob 1) [RenderEvent.cancel, RenderEvent.success 0]).status
        = JobStatus.COMPLETED := by
  decide

/-- Claim C4 amended: cancellation is accepted exactly from the PENDING and
PROCESSING states (otherwise the request is rejected and the job unchanged),
but CANCELLED is not a terminal state: a render task for an already
dispatched item that succeeds afterwards and meets the completion threshold
overwrites the Job status with COMPLETED. -/
theorem c4_amended (s : JobState) :
    ((cancel_job s).status =
      (if s.status = JobStatus.PENDING ∨ s.status = JobStatus.PROCESSING then
        JobStatus.CANCELLED else s.status))
    ∧ (¬ (s.status = JobStatus.PENDING ∨ s.status = JobStatus.PROCESSING) →
        cancel_job s = s)
    ∧ (∀ (i : Nat) (it : ItemState), s.items.get? i = some it →
        s.status = JobStatus.CANCELLED →
        s.total_items ≤ s.completed_items + 1 + s.failed_items →
        (render_document_success s i).status = JobStatus.COMPLETED) := by
  refine ⟨?_, ?_, ?_⟩
  · simp only [cancel_job]; split <;> simp
  · intro h; simp only [cancel_job]; split <;> simp_all
  · intro i it hit hc hth
    simp only [render_document_success, hit, checkCompletion]
    split
    · simp
    · omega

/-- Witness for c4_amended: the cancelled one-item job is flipped to
COMPLETED by the late success of its item. -/
theorem c4_amended_witness :
    (render_document_success (cancel_job (initJob 1)) 0).status = JobStatus.COMPLETED := by
  exact (c4_amended (cancel_job (initJob 1))).2.2 0 initItem (by decide) (by decide) (by decide)

/-! ## Theorems for claims C5-C7 -/

/-- Claim C5 counterexample: a non-native column whose 10-value sample has
exactly 8 values (exactly 80%) parsing as dates is classified `string`, not
`date`: `infer_column_type` requires strictly more than 80%
(`date_count > len(sample) * 0.8`), so "at least 80%" is wrong on the
boundary. -/
theorem c5_counterexample :
    ((vals8.take 10).filter predD).length * 5 = (vals8.take 10).length * 4
    ∧ infer_column_type false false false false vals8 predD = ColType.string := by
  decide

/-- Claim C5 amended: for a column that is not natively numeric, datetime or
boolean and has at least one non-null value, the type is `date` exactly when
STRICTLY more than 80% of the sample of the first 10 non-null values parses
as a date, and `string` otherwise.  The threshold is stated as the exact
rational comparison dateCount / sampleSize > 4/5. -/
theorem c5_amended (nonNull : List String) (isDateStr : String → Bool)
    (h : nonNull ≠ []) :
    (infer_column_type false false false false nonNull isDateStr = ColType.date ↔
      (4 : ℚ) / 5 < (((nonNull.take 10).filter isDateStr).length : ℚ) / ((nonNull.take 10).length : ℚ))
    ∧ (infer_column_type false false false false nonNull isDateStr = ColType.string ↔
      ¬ ((4 : ℚ) / 5 < (((nonNull.take 10).filter isDateStr).length : ℚ) / ((nonNull.take 10).length : ℚ))) := by
  have hlen0 : nonNull.length ≠ 0 := by
    simpa [List.length_eq_zero] using h
  have hpos : 0 < (nonNull.take 10).length := by
    simp only [List.length_take]
    omega
  have hq : ((4 : ℚ) / 5 < (((nonNull.take 10).filter isDateStr).length : ℚ) / ((nonNull.take 10).length : ℚ))
      ↔ 4 * (nonNull.take 10).length < 5 * ((nonNull.take 10).filter isDateStr).length := by
    rw [div_lt_div_iff₀ (by norm_num) (by exact_mod_cast hpos)]
    norm_cast
    omega
  have hred : infer_column_type false false false false nonNull isDateStr
      = (if 4 * (nonNull.take 10).length < 5 * ((nonNull.take 10).filter isDateStr).length
         then ColType.date else ColType.string) := by
    unfold infer_column_type
    rw [if_neg hlen0]
    simp
  rw [hred]
  by_cases hc : 4 * (nonNull.take 10).length < 5 * ((nonNull.take 10).filter isDateStr).length
  · rw [if_pos hc]
    exact ⟨⟨fun _ => hq.mpr hc, fun _ => rfl⟩,
      ⟨fun hcontr => absurd hcontr (by decide), fun hn => absurd (hq.mpr hc) hn⟩⟩
  · rw [if_neg hc]
    exact ⟨⟨fun hcontr => absurd hcontr (by decide), fun hQ => absurd (hq.mp hQ) hc⟩,
      ⟨fun _ hQ => hc (hq.mp hQ), fun _ => rfl⟩⟩

/-- Witness for c5_amended: 9 of 10 values parsing as dates infers `date`,
7 of 10 infers `string` (the scenario-C part of the claim, which the code
satisfies). -/
theorem c5_amended_witness :
    infer_column_type false false false false vals9 predD = ColType.date
    ∧ infer_column_type false false false false vals7 predD = ColType.string := by
  constructor
  · have h := (c5_amended vals9 predD (by decide)).1
    rw [show ((vals9.take 10).filter predD).length = 9 from by decide,
        show (vals9.take 10).length = 10 from by decide] at h
    exact h.mpr (by norm_num)
  · have h := (c5_amended vals7 predD (by decide)).2
    rw [show ((vals7.take 10).filter predD).length = 7 from by decide,
        show (vals7.take 10).length = 10 from by decide] at h
    exact h.mpr (by norm_num)

/-- Claim C6 counterexample: a JSON upload that is a bare scalar (neither an
array nor an object with a "data" key) fails the parse — but the task IS
retried: the `except` block of `parse_datasource` ends in
`raise self.retry(...)`, so on the first execution a retry is scheduled
60 seconds later, contradicting "ParseError is fatal, no retry". -/
theorem c6_counterexample :
    (parse_datasource ds0 (parse_json JsonShape.scalar) 0).2
      = TaskOutcome.retryScheduled 60 := by
  decide

/-- Claim C6 amended: for every malformed JSON upload (neither an array nor
an object with a "data" entry) the whole parse fails: the DataSource is set
FAILED with the error text captured and the persisted rows are untouched —
but the task is retried with backoff 60s x (attempt number) while fewer than
3 retries have happened, and only then is the error final. -/
theorem c6_amended (ds : DataSourceState) (j : JsonShape) (retries : Nat)
    (hmal : ∀ rows, parse_json j ≠ Except.ok rows) :
    (parse_datasource ds (parse_json j) retries).1.status = DataSourceStatus.FAILED
    ∧ (parse_datasource ds (parse_json j) retries).1.error_message = some jsonErrMsg
    ∧ (parse_datasource ds (parse_json j) retries).1.rows = ds.rows
    ∧ (parse_datasource ds (parse_json j) retries).2
        = (if retries < 3 then TaskOutcome.retryScheduled (60 * (retries + 1))
           else TaskOutcome.exhausted) := by
  cases j with
  | arr rows => exact absurd rfl (hmal rows)
  | objWithData rows => exact absurd rfl (hmal rows)
  | objNoData keys => simp [parse_json, parse_datasource]
  | scalar => simp [parse_json, parse_datasource]

/-- Witness for c6_amended: the scalar upload on its second execution
(retries = 1) leaves the DataSource FAILED with the error text, rows
untouched, and schedules the next retry after 120 seconds. -/
theorem c6_amended_witness :
    (parse_datasource ds0 (parse_json JsonShape.scalar) 1).1.status = DataSourceStatus.FAILED
    ∧ (parse_datasource ds0 (parse_json JsonShape.scalar) 1).1.error_message = some jsonErrMsg
    ∧ (parse_datasource ds0 (parse_json JsonShape.scalar) 1).1.rows = ds0.rows
    ∧ (parse_datasource ds0 (parse_json JsonShape.scalar) 1).2
        = TaskOutcome.retryScheduled 120 := by
  have h := c6_amended ds0 JsonShape.scalar 1
    (by intro rows hr; simp [parse_json] at hr)
  exact ⟨h.1, h.2.1, h.2.2.1, h.2.2.2.trans (by decide)⟩

/-- Claim C7 counterexample: `create_bundle` keeps the order in which the
database returned the completed items (the query has no ORDER BY), so with
the same completed-item set {itemA, itemB} the archive depends on that
order: entries can come out as document_0002.pdf before document_0001.pdf,
and the two orders give different archives — the entry order is neither
"ordered by row index" nor a function of the completed-item set. -/
theorem c7_counterexample :
    create_bundle [itemB, itemA]
      = BundleResult.bundle
          [("document_0002.pdf".toList, [11]), ("document_0001.pdf".toList, [10])]
          { type := OutputType.bundle, mime_type := "application/zip" }
    ∧ create_bundle [itemB, itemA] ≠ create_bundle [itemA, itemB] := by
  decide

/-- Claim C7 amended: `create_bundle` selects exactly the COMPLETED items,
is a no-op reporting "no items" when there are none, and otherwise writes
one deflate-archive entry per completed item IN THE ORDER THE QUERY RETURNED
THEM (not sorted by row index), each named `document_%04d.pdf` with the
number `row_index + 1` zero-padded to 4 digits and holding the item's
artifact bytes unchanged, and records an Output of type `bundle`. -/
theorem c7_amended (allItems : List BundleItem) :
    (allItems.filter (fun it => it.status == JobItemStatus.COMPLETED) = [] →
      create_bundle allItems = BundleResult.noItems)
    ∧ (allItems.filter (fun it => it.status == JobItemStatus.COMPLETED) ≠ [] →
      create_bundle allItems
        = BundleResult.bundle
            ((allItems.filter (fun it => it.status == JobItemStatus.COMPLETED)).map
              (fun it => ("document_".toList ++ pad4 (it.row_index + 1) ++ ".pdf".toList,
                it.content)))
            { type := OutputType.bundle, mime_type := "application/zip" }) := by
  constructor
  · intro h
    simp [create_bundle, h]
  · intro h
    unfold create_bundle
    cases hf : allItems.filter (fun it => it.status == JobItemStatus.COMPLETED) with
    | nil => exact absurd hf h
    | cons a rest =>
        simp [bundleFilename, hf]

/-- Witness for c7_amended: a one-completed-item job bundles into the single
entry document_0001.pdf, and a job whose only item is FAILED reports no
items. -/
theorem c7_amended_witness :
    create_bundle [itemA]
      = BundleResult.bundle [("document_".toList ++ pad4 1 ++ ".pdf".toList, [10])]
          { type := OutputType.bundle, mime_type := "application/zip" }
    ∧ create_bundle [{ itemA with status := JobItemStatus.FAILED }] = BundleResult.noItems := by
  constructor
  · exact (c7_amended [itemA]).2 (by decide) |>.trans (by decide)
  · exact (c7_amended [{ itemA with status := JobItemStatus.FAILED }]).1 (by decide)

/-! ## Scanning lemmas for the body extraction (claim C8)

The leftmost-match search distributes over an append whose left part
contains no match window; the window conditions reduce to a decidable
containment check. -/

theorem lowerStartsWith_head_ne (p c : Char) (ps cs : List Char)
    (h : (Char.toLower c == p) = false) :
    lowerStartsWith (p :: ps) (c :: cs) = false := by
  simp [lowerStartsWith, h]

theorem containsLower_of_window (pat l : List Char) (i : Nat)
    (h : lowerStartsWith pat (l.drop i) = true) :
    containsLower pat l = true := by
  induction l generalizing i with
  | nil =>
      simp only [List.drop_nil] at h
      simp [containsLower, splitAtFirstLower, h]
  | cons c cs ih =>
      cases i with
      | zero =>
          simp only [List.drop_zero] at h
          simp [containsLower, splitAtFirstLower, h]
      | succ j =>
          have hc := ih j (by simpa using h)
          simp only [containsLower, splitAtFirstLower] at hc ⊢
          cases hg : lowerStartsWith pat (c :: cs) <;> simp [hg]
          cases hs : splitAtFirstLower pat cs <;> simp [hs] <;> simp [hs] at hc

theorem lowerStartsWith_take_of_le (pat : List Char) (r : List Char) (k : Nat)
    (h : pat.length ≤ k) :
    lowerStartsWith pat (r.take k) = lowerStartsWith pat r := by
  induction pat generalizing r k with
  | nil => simp [lowerStartsWith]
  | cons p ps ih =>
      cases k with
      | zero => simp at h
      | succ k2 =>
          cases r with
          | nil => simp
          | cons c cs =>
              simp only [List.take_succ_cons, lowerStartsWith]
              congr 1
              exact ih cs k2 (by simpa using h)

theorem lowerStartsWith_append_take (pat l r : List Char) (k : Nat)
    (h : pat.length ≤ l.length + k) :
    lowerStartsWith pat (l ++ r.take k) = lowerStartsWith pat (l ++ r) := by
  induction l generalizing pat with
  | nil =>
      simp only [List.nil_append]
      exact lowerStartsWith_take_of_le pat r k (by simpa using h)
  | cons c cs ih =>
      cases pat with
      | nil => simp [lowerStartsWith]
      | cons p ps =>
          simp only [List.cons_append, lowerStartsWith]
          congr 1
          exact ih ps (by simp at h ⊢; omega)

theorem containsLower_nil_pat (l : List Char) : containsLower [] l = true := by
  cases l <;> simp [containsLower, splitAtFirstLower, lowerStartsWith]

theorem windows_fail (pat x y : List Char)
    (h : containsLower pat (x ++ y.take (pat.length - 1)) = false) :
    ∀ i, i < x.length → lowerStartsWith pat (x.drop i ++ y) = false := by
  intro i hi
  cases pat with
  | nil =>
      rw [containsLower_nil_pat] at h
      cases h
  | cons p ps =>
      cases hw : lowerStartsWith (p :: ps) (x.drop i ++ y) with
      | false => rfl
      | true =>
          exfalso
          have hlen : 1 ≤ (x.drop i).length := by
            simp only [List.length_drop]
            omega
          have h4 : lowerStartsWith (p :: ps) (x.drop i ++ y.take ps.length) = true := by
            rw [lowerStartsWith_append_take (p :: ps) (x.drop i) y ps.length
              (by simp; omega)]
            exact hw
          have hdrop : x.drop i ++ y.take ps.length
              = (x ++ y.take ps.length).drop i :=
            (List.drop_append_of_le_length (by omega)).symm
          rw [hdrop] at h4
          have hcontra := containsLower_of_window (p :: ps) (x ++ y.take ps.length) i h4
          rw [show (p :: ps).length - 1 = ps.length from by simp] at h
          rw [h] at hcontra
          cases hcontra

theorem splitAtFirstLower_append (pat x y : List Char)
    (h : ∀ i, i < x.length → lowerStartsWith pat (x.drop i ++ y) = false) :
    splitAtFirstLower pat (x ++ y)
      = (splitAtFirstLower pat y).map (fun p => (x ++ p.1, p.2)) := by
  induction x with
  | nil =>
      cases hs : splitAtFirstLower pat y <;> simp [hs]
  | cons c cs ih =>
      have h0 : lowerStartsWith pat (c :: (cs ++ y)) = false := by
        have := h 0 (by simp)
        simpa using this
      have hstep : splitAtFirstLower pat ((c :: cs) ++ y)
          = (splitAtFirstLower pat (cs ++ y)).map (fun p => (c :: p.1, p.2)) := by
        show (if lowerStartsWith pat (c :: (cs ++ y)) = true
              then some (([] : List Char), c :: (cs ++ y))
              else (splitAtFirstLower pat (cs ++ y)).map (fun p => (c :: p.1, p.2)))
            = (splitAtFirstLower pat (cs ++ y)).map (fun p => (c :: p.1, p.2))
        rw [h0]
        simp
      rw [hstep, ih (fun i hi => by
        have := h (i + 1) (by simp; omega)
        simpa using this)]
      cases hs : splitAtFirstLower pat y <;> simp [hs]

/-! ## Theorems for claim C8 -/

set_option maxRecDepth 100000

/-- Body extraction applied to a `render_template` document produced with an
empty stylesheet: the result is exactly the inner content of its `<body>`
element, that is, the Jinja2 render surrounded by the wrapper whitespace.
The hypothesis says the rendered fragment contains no case-insensitive
occurrence of "</body>", stated over the fragment extended by the first
characters of the wrapper's closing text so that straddling occurrences are
covered as well. -/
theorem extractBody_render_template (jinja : List Char → RowData → List Char)
    (template_content : List Char) (data : RowData)
    (hb : containsLower bodyClosePat (jinja template_content data ++ chars "\n</bod") = false) :
    extractBodyContent (render_template jinja template_content [] data)
      = bodyPad ++ jinja template_content data ++ chars "\n" := by
  have hwin : ∀ i, i < (bodyPad ++ jinja template_content data).length →
      lowerStartsWith bodyClosePat
        ((bodyPad ++ jinja template_content data).drop i ++ bodyTail) = false := by
    intro i hi
    by_cases hip : i < bodyPad.length
    · rw [List.drop_append_of_le_length (by omega), List.append_assoc]
      have hip5 : i < 5 := by simpa [bodyPad] using hip
      interval_cases i
      · exact lowerStartsWith_head_ne _ _ _ _ (by decide)
      · exact lowerStartsWith_head_ne _ _ _ _ (by decide)
      · exact lowerStartsWith_head_ne _ _ _ _ (by decide)
      · exact lowerStartsWith_head_ne _ _ _ _ (by decide)
      · exact lowerStartsWith_head_ne _ _ _ _ (by decide)
    · obtain ⟨k, rfl⟩ : ∃ k, i = bodyPad.length + k :=
        ⟨i - bodyPad.length, by omega⟩
      rw [List.drop_append]
      refine windows_fail bodyClosePat (jinja template_content data) bodyTail ?_ k ?_
      · rw [show bodyTail.take (bodyClosePat.length - 1) = chars "\n</bod" from rfl]
        exact hb
      · have := hi
        simp only [List.length_append] at this
        omega
  have hsplit3 : splitAtFirstLower bodyClosePat
      (bodyPad ++ (jinja template_content data ++ bodyTail))
      = some ((bodyPad ++ jinja template_content data) ++ ['\n'],
          chars "</body>\n</html>") := by
    rw [← List.append_assoc]
    rw [splitAtFirstLower_append bodyClosePat
      (bodyPad ++ jinja template_content data) bodyTail hwin]
    rw [show splitAtFirstLower bodyClosePat bodyTail
      = some (['\n'], chars "</body>\n</html>") from rfl]
    rfl
  show (((splitAtFirstLower bodyClosePat
      (bodyPad ++ (jinja template_content data ++ bodyTail))).map
        (fun m3 => m3.1)).getD (render_template jinja template_content [] data))
      = bodyPad ++ jinja template_content data ++ chars "\n"
  rw [hsplit3]
  simp only [Option.map_some', Option.getD_some]
  rw [List.append_assoc]
  rfl

/-- Claim C8: `render_combined_document` refines the spec §4.4 algorithm:
for every non-empty row list it renders each row independently with an empty
stylesheet, keeps only the body inner content of each per-row render, wraps
each fragment in a page-container block, joins the containers — one per row,
so N rows give N page-break-separated sections — into one body, and wraps
the result once with the page-break css and the full stylesheet.  The
hypothesis excludes row fragments containing "</body>" themselves (there the
regex would cut the fragment short). -/
theorem c8_combined_document (jinja : List Char → RowData → List Char)
    (template_content css_content : List Char) (mapping : List (String × String))
    (all_rows_data : List RowData)
    (hne : all_rows_data ≠ [])
    (hb : ∀ row ∈ all_rows_data,
      containsLower bodyClosePat
        (jinja template_content (apply_mapping row mapping) ++ chars "\n</bod") = false) :
    render_combined_document jinja template_content css_content mapping all_rows_data
      = combinedDocumentSpec jinja template_content css_content mapping all_rows_data := by
  unfold render_combined_document combinedDocumentSpec
  have hpages : (all_rows_data.map (fun row =>
        extractBodyContent
          (render_template jinja template_content [] (apply_mapping row mapping)))).map
      (fun page => containerOpen ++ page ++ containerClose)
      = all_rows_data.map (fun row =>
          containerOpen ++ specPageFragment jinja template_content mapping row
            ++ containerClose) := by
    rw [List.map_map]
    refine List.map_eq_map_iff.mpr ?_
    intro row hrow
    simp only [Function.comp_apply, specPageFragment]
    rw [extractBody_render_template jinja template_content (apply_mapping row mapping)
      (hb row hrow)]
  rw [hpages]

/-- Witness for c8_combined_document: a concrete Jinja2 engine rendering a
greeting for each of 3 rows produces the spec document — 3 page-container
sections, css once. -/
theorem c8_combined_document_witness :
    render_combined_document (fun _ _ => chars "Hi") (chars "T") (chars "p \x7b color: red; \x7d")
      [("tv", "col")] [[("col", JValue.str "a")], [("col", JValue.str "b")], [("col", JValue.null)]]
      = combinedDocumentSpec (fun _ _ => chars "Hi") (chars "T") (chars "p \x7b color: red; \x7d")
      [("tv", "col")] [[("col", JValue.str "a")], [("col", JValue.str "b")], [("col", JValue.null)]] := by
  refine c8_combined_document _ _ _ _ _ (by decide) ?_
  intro row hrow
  decide

/-! ## Theorems for claims C9-C10 -/

/-- Claim C9: `apply_mapping` is total (it never raises), its result is
keyed by exactly the template-variable names of the mapping, and for every
mapping entry whose data-source column is absent from the row the produced
value is null; when the column is present the row's value is taken.  The
uniqueness of the mapping keys (a Python dict) is the Nodup hypothesis. -/
theorem c9_apply_mapping (row_data : RowData) (mapping : List (String × String)) :
    (apply_mapping row_data mapping).map Prod.fst = mapping.map Prod.fst
    ∧ (∀ tv col, (tv, col) ∈ mapping → (mapping.map Prod.fst).Nodup →
        lookupCol (apply_mapping row_data mapping) tv
          = some ((lookupCol row_data col).getD JValue.null)) := by
  constructor
  · simp [apply_mapping]
  · intro tv col hmem hnd
    induction mapping with
    | nil => simp at hmem
    | cons p rest ih =>
        simp only [apply_mapping, List.map_cons, lookupCol]
        rcases List.mem_cons.mp hmem with heq | htail
        · subst heq
          simp only [if_pos rfl]
          cases hlk : lookupCol row_data col <;> simp
        · have hne : p.1 ≠ tv := by
            intro hpe
            have : tv ∈ rest.map Prod.fst := by
              exact List.mem_map.mpr ⟨(tv, col), htail, rfl⟩
            simp only [List.map_cons, List.nodup_cons] at hnd
            exact hnd.1 (hpe ▸ this)
          rw [if_neg hne]
          exact ih htail (by
            simp only [List.map_cons, List.nodup_cons] at hnd
            exact hnd.2)

/-- Witness for c9_apply_mapping: mapping entry ("tv2", "missing") whose
column is absent from the row maps to null. -/
theorem c9_apply_mapping_witness :
    lookupCol (apply_mapping [("name", JValue.str "x")] [("tv1", "name"), ("tv2", "missing")]) "tv2"
      = some JValue.null := by
  have h := (c9_apply_mapping [("name", JValue.str "x")] [("tv1", "name"), ("tv2", "missing")]).2
    "tv2" "missing" (by decide) (by decide)
  exact h.trans (by decide)

/-- Claim C10: every archive entry written by `create_bundle` corresponds to
a COMPLETED item, carries that item's artifact bytes unchanged, and is named
with the `.pdf` extension — the filename is `document_%04d.pdf` no matter
what bytes (for an html-format job, HTML bytes) the artifact holds. -/
theorem c10_bundle_pdf_names (allItems : List BundleItem)
    (entries : List (List Char × List Nat)) (out : OutputRec)
    (h : create_bundle allItems = BundleResult.bundle entries out)
    (e : List Char × List Nat) (he : e ∈ entries) :
    ∃ it, it ∈ allItems ∧ it.status = JobItemStatus.COMPLETED
      ∧ e = (bundleFilename it.row_index, it.content)
      ∧ ∃ stem, e.1 = stem ++ ".pdf".toList := by
  unfold create_bundle at h
  cases hf : allItems.filter (fun it => it.status == JobItemStatus.COMPLETED) with
  | nil => rw [hf] at h; cases h
  | cons a rest =>
      rw [hf] at h
      cases h
      rcases List.mem_map.mp he with ⟨it, hit, heq⟩
      have hmem : it ∈ allItems.filter (fun it => it.status == JobItemStatus.COMPLETED) := by
        rw [hf]; exact hit
      have hin := List.mem_filter.mp hmem
      refine ⟨it, hin.1, by simpa using hin.2, heq.symm, ?_⟩
      refine ⟨"document_".toList ++ pad4 (it.row_index + 1), ?_⟩
      rw [← heq]
      simp [bundleFilename]

/-- Witness for c10_bundle_pdf_names: the html-bytes item is archived under
document_0001.pdf with its HTML content unchanged. -/
theorem c10_bundle_pdf_names_witness :
    ∃ it, it ∈ [itemH] ∧ it.status = JobItemStatus.COMPLETED
      ∧ (("document_0001.pdf".toList, [60, 104, 116, 109, 108, 62]) : List Char × List Nat)
          = (bundleFilename it.row_index, it.content)
      ∧ ∃ stem, (("document_0001.pdf".toList, ([60, 104, 116, 109, 108, 62] : List Nat)) : List Char × List Nat).1
          = stem ++ ".pdf".toList := by
  exact c10_bundle_pdf_names [itemH]
    [("document_0001.pdf".toList, [60, 104, 116, 109, 108, 62])]
    { type := OutputType.bundle, mime_type := "application/zip" }
    (by decide)
    ("document_0001.pdf".toList, [60, 104, 116, 109, 108, 62])
    (by decide)

end AutoDocs
